import Mathlib

/-!
Verification of the AASHTO-1993 flexible-pavement design core
(`src/pavement.py`): the Structural Number solver, the greedy
layer-thickness allocator, the reliability table lookup, and the layer
coefficient lookup.

The allocator and the two lookups are exact arithmetic, embedded over ℚ.
The solver inverts a transcendental design equation: we embed the
equation over ℝ (base-10 logarithm, real exponent) and treat the
external root-finding routine (`scipy.optimize.fsolve`) as an abstract
parameter, since its internals are library code outside this repository;
the equation itself, the initial guess 3.0 and the postcondition
`max (solution, 0)` are translated from the source.  A second,
error-explicit model (`Option`-valued) makes the undefined-logarithm
condition of `log10` on a non-positive argument observable, for the
error-handling properties.
-/

namespace Pavement

/-- Embedding of `calculate_layer_thickness` from `src/pavement.py`.
`D3_min` is bound but never used, exactly as in the source. -/
def calculate_layer_thickness (SN_required a1 a2 a3 m2 m3 : ℚ) : ℚ × ℚ × ℚ :=
  let D1_min : ℚ := 3
  let D2_min : ℚ := 6
  let D3_min : ℚ := 6
  let SN1 := a1 * D1_min
  let SN_remaining := SN_required - SN1
  if SN_remaining ≤ 0 then (D1_min, 0, 0)
  else
    let SN2 := a2 * D2_min * m2
    let SN_remaining2 := SN_remaining - SN2
    if SN_remaining2 ≤ 0 then (D1_min, D2_min, 0)
    else
      let D3 := SN_remaining2 / (a3 * m3)
      (D1_min, D2_min, D3)

/-- Embedding of `get_reliability_z` from `src/pavement.py`: the fixed
reliability table, with the dictionary `.get` default of -1.645. -/
def get_reliability_z (reliability_percent : ℚ) : ℚ :=
  if reliability_percent = 50 then 0
  else if reliability_percent = 60 then -253/1000
  else if reliability_percent = 70 then -524/1000
  else if reliability_percent = 75 then -674/1000
  else if reliability_percent = 80 then -841/1000
  else if reliability_percent = 85 then -1037/1000
  else if reliability_percent = 90 then -1282/1000
  else if reliability_percent = 95 then -1645/1000
  else if reliability_percent = 99 then -2327/1000
  else if reliability_percent = 999/10 then -309/100
  else -1645/1000

/-- Embedding of `get_layer_coefficient` from `src/pavement.py`.  The
source binds `EAC = material_property` in the asphalt branch but never
uses it; every branch returns a constant. -/
def get_layer_coefficient (material_type : String) (material_property : ℚ) : ℚ :=
  if material_type = "asphalt" then 44/100
  else if material_type = "base" then 14/100
  else if material_type = "subbase" then 11/100
  else 0

noncomputable section

/-- Embedding of the inner `aashto_equation` closure of
`calculate_sn_from_aashto` in `src/pavement.py`: the AASHTO 1993 design
equation residual, as a function of the trial structural number `SN`. -/
def aashto_equation (W18 ZR So delta_psi MR SN : ℝ) : ℝ :=
  let term1 := ZR * So
  let term2 := 9.36 * Real.logb 10 (SN + 1)
  let term3 := -0.20
  let numerator := Real.logb 10 (delta_psi / (4.2 - 1.5))
  let denominator := 0.40 + 1094 / ((SN + 1) ^ (5.19 : ℝ))
  let term4 := numerator / denominator
  let term5 := 2.32 * Real.logb 10 MR
  let term6 := -8.07
  term1 + term2 + term3 + term4 + term5 + term6 - Real.logb 10 W18

/-- Embedding of `calculate_sn_from_aashto` from `src/pavement.py`.  The
external root-finding routine (`scipy.optimize.fsolve`) is library code,
so it is an abstract parameter `solve`: it receives the residual
function and the initial guess 3.0 and produces an estimate, which the
source clamps with `max (SN_solution, 0)`. -/
def calculate_sn_from_aashto (solve : (ℝ → ℝ) → ℝ → ℝ)
    (W18 ZR So delta_psi MR : ℝ) : ℝ :=
  max (solve (aashto_equation W18 ZR So delta_psi MR) 3.0) 0

/-- Base-10 logarithm with its domain made explicit: `none` exactly when
the argument is not positive (the undefined-logarithm condition of
`log10` on invalid input). -/
def log10E (x : ℝ) : Option ℝ :=
  if 0 < x then some (Real.logb 10 x) else none

/-- `aashto_equation` in the error-explicit model: each `log10` whose
argument is not positive aborts the evaluation, in the order the source
evaluates them (`SN + 1`, then `delta_psi / (4.2 - 1.5)`, then `MR`,
then `W18`). -/
def aashto_equationE (W18 ZR So delta_psi MR SN : ℝ) : Option ℝ := do
  let l2 ← log10E (SN + 1)
  let lnum ← log10E (delta_psi / (4.2 - 1.5))
  let l5 ← log10E MR
  let lW ← log10E W18
  pure (ZR * So + 9.36 * l2 - 0.20
    + lnum / (0.40 + 1094 / ((SN + 1) ^ (5.19 : ℝ)))
    + 2.32 * l5 - 8.07 - lW)

/-- `calculate_sn_from_aashto` in the error-explicit model: the core has
no handler, so a failing evaluation of the equation inside the abstract
solver propagates out; a successful estimate is clamped as in the
source. -/
def calculate_sn_from_aashtoE (solve : (ℝ → Option ℝ) → ℝ → Option ℝ)
    (W18 ZR So delta_psi MR : ℝ) : Option ℝ := do
  let s ← solve (aashto_equationE W18 ZR So delta_psi MR) 3.0
  pure (max s 0)

end

/-- With `delta_psi = 2.7` the serviceability term of the design
equation vanishes and the residual collapses to an affine expression in
the two remaining logarithms. -/
lemma aashto_eq_of_delta27 (W18 ZR So MR SN : ℝ) :
    aashto_equation W18 ZR So (27/10) MR SN =
      ZR * So + 9.36 * Real.logb 10 (SN + 1) - 0.20
        + 2.32 * Real.logb 10 MR - 8.07 - Real.logb 10 W18 := by
  simp only [aashto_equation]
  rw [show ((27:ℝ)/10) / (4.2 - 1.5) = 1 by norm_num, Real.logb_one, zero_div]
  ring

/-- For `delta_psi = 2.7` the design-equation residual is strictly
increasing in the trial structural number on `[0, ∞)`. -/
lemma aashto_strictMonoOn_delta27 (W18 ZR So MR : ℝ) :
    StrictMonoOn (aashto_equation W18 ZR So (27/10) MR) (Set.Ici 0) := by
  intro x hx y _ hxy
  have hx0 : (0:ℝ) ≤ x := Set.mem_Ici.mp hx
  have h1 : Real.logb 10 (x + 1) < Real.logb 10 (y + 1) :=
    Real.logb_lt_logb (by norm_num) (by linarith) (by linarith)
  rw [aashto_eq_of_delta27, aashto_eq_of_delta27]
  linarith

/-- Changing only the traffic parameter shifts the residual by the
difference of the `log10 (W18)` terms. -/
lemma aashto_W18_shift (W18 W18' ZR So delta_psi MR SN : ℝ) :
    aashto_equation W18' ZR So delta_psi MR SN =
      aashto_equation W18 ZR So delta_psi MR SN
        + (Real.logb 10 W18 - Real.logb 10 W18') := by
  simp only [aashto_equation]
  ring

/-- Changing only the resilient modulus shifts the residual by the
difference of the `2.32 * log10 (MR)` terms. -/
lemma aashto_MR_shift (W18 ZR So delta_psi MR MR' SN : ℝ) :
    aashto_equation W18 ZR So delta_psi MR' SN =
      aashto_equation W18 ZR So delta_psi MR SN
        + 2.32 * (Real.logb 10 MR' - Real.logb 10 MR) := by
  simp only [aashto_equation]
  ring

/-- Concrete root of the design equation: `SN = 9` solves it at
`W18 = 10 ^ 3.41`, `ZR = 0`, `So = 1/2`, `delta_psi = 2.7`, `MR = 10`. -/
lemma aashto_root_nine :
    aashto_equation ((10:ℝ) ^ (3.41:ℝ)) 0 (1/2) (27/10) 10 9 = 0 := by
  rw [aashto_eq_of_delta27]
  rw [show ((9:ℝ) + 1) = 10 by norm_num]
  rw [Real.logb_self_eq_one (by norm_num), Real.logb_rpow (by norm_num) (by norm_num)]
  norm_num

/-- Concrete root of the design equation: `SN = 99` solves it at
`W18 = 10 ^ 12.77`, `ZR = 0`, `So = 1/2`, `delta_psi = 2.7`, `MR = 10`. -/
lemma aashto_root_ninetynine :
    aashto_equation ((10:ℝ) ^ (12.77:ℝ)) 0 (1/2) (27/10) 10 99 = 0 := by
  rw [aashto_eq_of_delta27]
  rw [show ((99:ℝ) + 1) = (10:ℝ) ^ (2:ℝ) by
    rw [show (2:ℝ) = ((2:ℕ):ℝ) by norm_num, Real.rpow_natCast]; norm_num]
  rw [Real.logb_self_eq_one (by norm_num), Real.logb_rpow (by norm_num) (by norm_num),
    Real.logb_rpow (by norm_num) (by norm_num)]
  norm_num

/-- Concrete root of the design equation: `SN = 0` solves it at
`W18 = 10 ^ 3.41`, `ZR = 0`, `So = 1/2`, `delta_psi = 2.7`,
`MR = 10 ^ (146/29)`. -/
lemma aashto_root_zero :
    aashto_equation ((10:ℝ) ^ (3.41:ℝ)) 0 (1/2) (27/10)
      ((10:ℝ) ^ ((146/29:ℝ))) 0 = 0 := by
  rw [aashto_eq_of_delta27]
  rw [show ((0:ℝ) + 1) = 1 by norm_num, Real.logb_one,
    Real.logb_rpow (by norm_num) (by norm_num), Real.logb_rpow (by norm_num) (by norm_num)]
  norm_num

/-- `10 ≤ 10 ^ (146/29)`, the modulus increase used in the monotonicity
witness. -/
lemma ten_le_ten_rpow : (10:ℝ) ≤ (10:ℝ) ^ ((146/29:ℝ)) := by
  nth_rewrite 1 [show (10:ℝ) = (10:ℝ) ^ (1:ℝ) by rw [Real.rpow_one]]
  exact (Real.rpow_le_rpow_left_iff (by norm_num)).mpr (by norm_num)

/-- In the error-explicit model, a non-positive serviceability ratio or
a non-positive resilient modulus makes the equation undefined at every
trial value. -/
lemma aashto_equationE_none (W18 ZR So delta_psi MR SN : ℝ)
    (h : delta_psi / (4.2 - 1.5) ≤ 0 ∨ MR ≤ 0) :
    aashto_equationE W18 ZR So delta_psi MR SN = none := by
  simp only [aashto_equationE, log10E]
  rcases h with h | h
  · rw [if_neg (not_lt.mpr h)]
    cases hif : (if 0 < SN + 1 then some (Real.logb 10 (SN + 1)) else none) <;> rfl
  · by_cases hd : 0 < delta_psi / (4.2 - 1.5)
    · rw [if_pos hd, if_neg (not_lt.mpr h)]
      cases hif : (if 0 < SN + 1 then some (Real.logb 10 (SN + 1)) else none) <;> rfl
    · rw [if_neg hd]
      cases hif : (if 0 < SN + 1 then some (Real.logb 10 (SN + 1)) else none) <;> rfl

/-- Claim C1: for every valid input tuple (`W18 > 0`, `ZR ≤ 0`,
`So ∈ (0,1)`, `delta_psi > 0`, `MR > 0`) and every path the abstract
root-finder takes, `calculate_sn_from_aashto` returns a value `≥ 0`:
the result is clamped to be non-negative. -/
theorem solver_result_nonneg (solve : (ℝ → ℝ) → ℝ → ℝ)
    (W18 ZR So delta_psi MR : ℝ)
    (hW : 0 < W18) (hZR : ZR ≤ 0) (hSo0 : 0 < So) (hSo1 : So < 1)
    (hdp : 0 < delta_psi) (hMR : 0 < MR) :
    0 ≤ calculate_sn_from_aashto solve W18 ZR So delta_psi MR :=
  le_max_right _ _

/-- Witness for C1: a concrete valid input, with a root-finder whose
estimate is the negative number -5, still yields a non-negative
result. -/
theorem solver_result_nonneg_witness :
    (0:ℝ) < 1000000 ∧ (-1282/1000 : ℝ) ≤ 0 ∧ (0:ℝ) < 45/100 ∧ (45/100:ℝ) < 1 ∧
    (0:ℝ) < 17/10 ∧ (0:ℝ) < 10000 ∧
    0 ≤ calculate_sn_from_aashto (fun _ _ => -5) 1000000 (-1282/1000) (45/100)
      (17/10) 10000 :=
  ⟨by norm_num, by norm_num, by norm_num, by norm_num, by norm_num, by norm_num,
    solver_result_nonneg (fun _ _ => -5) 1000000 (-1282/1000) (45/100) (17/10) 10000
      (by norm_num) (by norm_num) (by norm_num) (by norm_num) (by norm_num) (by norm_num)⟩

/-- Claim C2: for positive coefficients, the triple `(D1, D2, D3)`
returned by `calculate_layer_thickness` satisfies: if `D3 > 0` then
`a1*D1 + a2*D2*m2 + a3*D3*m3 = SN_required` exactly; if `D3 = 0` and
`D2 = 6` then `a1*D1 + a2*D2*m2 ≥ SN_required`; and if `D2 = 0` then
`a1*D1 ≥ SN_required`. -/
theorem allocate_layers_balance (SN_required a1 a2 a3 m2 m3 : ℚ)
    (ha1 : 0 < a1) (ha2 : 0 < a2) (ha3 : 0 < a3) (hm2 : 0 < m2) (hm3 : 0 < m3) :
    (0 < (calculate_layer_thickness SN_required a1 a2 a3 m2 m3).2.2 →
      a1 * (calculate_layer_thickness SN_required a1 a2 a3 m2 m3).1
        + a2 * (calculate_layer_thickness SN_required a1 a2 a3 m2 m3).2.1 * m2
        + a3 * (calculate_layer_thickness SN_required a1 a2 a3 m2 m3).2.2 * m3
        = SN_required) ∧
    ((calculate_layer_thickness SN_required a1 a2 a3 m2 m3).2.2 = 0 ∧
       (calculate_layer_thickness SN_required a1 a2 a3 m2 m3).2.1 = 6 →
      SN_required ≤ a1 * (calculate_layer_thickness SN_required a1 a2 a3 m2 m3).1
        + a2 * (calculate_layer_thickness SN_required a1 a2 a3 m2 m3).2.1 * m2) ∧
    ((calculate_layer_thickness SN_required a1 a2 a3 m2 m3).2.1 = 0 →
      SN_required ≤ a1 * (calculate_layer_thickness SN_required a1 a2 a3 m2 m3).1) := by
  have ha3m3 : a3 * m3 ≠ 0 := by positivity
  simp only [calculate_layer_thickness]
  split_ifs with h1 h2
  · refine ⟨fun h => absurd h (by norm_num), fun h => absurd h.2 (by norm_num),
      fun _ => by simpa using by linarith⟩
  · refine ⟨fun h => absurd h (by norm_num), fun _ => by simpa using by linarith,
      fun h => absurd h (by norm_num)⟩
  · refine ⟨fun _ => ?_, fun h => ?_, fun h => absurd h (by norm_num)⟩
    · simp only
      field_simp
      ring
    · exfalso
      have := h.1
      simp only at this
      rcases div_eq_zero_iff.mp this with h3 | h3
      · exact h2 (le_of_eq (by linarith))
      · exact ha3m3 h3

/-- Witness for C2: at `SN_required = 5` with the standard coefficients
`(0.44, 0.14, 0.11, 1, 1)` the allocation satisfies all three clauses of
the balance property. -/
theorem allocate_layers_balance_witness :
    (0:ℚ) < 44/100 ∧ (0:ℚ) < 14/100 ∧ (0:ℚ) < 11/100 ∧ (0:ℚ) < 1 ∧
    ((0 < (calculate_layer_thickness 5 (44/100) (14/100) (11/100) 1 1).2.2 →
      44/100 * (calculate_layer_thickness 5 (44/100) (14/100) (11/100) 1 1).1
        + 14/100 * (calculate_layer_thickness 5 (44/100) (14/100) (11/100) 1 1).2.1 * 1
        + 11/100 * (calculate_layer_thickness 5 (44/100) (14/100) (11/100) 1 1).2.2 * 1
        = 5) ∧
    ((calculate_layer_thickness 5 (44/100) (14/100) (11/100) 1 1).2.2 = 0 ∧
       (calculate_layer_thickness 5 (44/100) (14/100) (11/100) 1 1).2.1 = 6 →
      (5:ℚ) ≤ 44/100 * (calculate_layer_thickness 5 (44/100) (14/100) (11/100) 1 1).1
        + 14/100 * (calculate_layer_thickness 5 (44/100) (14/100) (11/100) 1 1).2.1 * 1) ∧
    ((calculate_layer_thickness 5 (44/100) (14/100) (11/100) 1 1).2.1 = 0 →
      (5:ℚ) ≤ 44/100 * (calculate_layer_thickness 5 (44/100) (14/100) (11/100) 1 1).1)) :=
  ⟨by norm_num, by norm_num, by norm_num, by norm_num,
    allocate_layers_balance 5 (44/100) (14/100) (11/100) 1 1
      (by norm_num) (by norm_num) (by norm_num) (by norm_num) (by norm_num)⟩

/-- Claim C3: `calculate_layer_thickness` follows the greedy three-step
case analysis: if `SN_required - a1*3 ≤ 0` it returns `(3, 0, 0)`;
otherwise if `(SN_required - a1*3) - a2*6*m2 ≤ 0` it returns
`(3, 6, 0)`; otherwise it returns `(3, 6, D3)` with `D3` the remainder
divided by `a3*m3`. -/
theorem allocate_layers_cases (SN_required a1 a2 a3 m2 m3 : ℚ) :
    (SN_required - a1 * 3 ≤ 0 →
      calculate_layer_thickness SN_required a1 a2 a3 m2 m3 = (3, 0, 0)) ∧
    (¬ (SN_required - a1 * 3 ≤ 0) → SN_required - a1 * 3 - a2 * 6 * m2 ≤ 0 →
      calculate_layer_thickness SN_required a1 a2 a3 m2 m3 = (3, 6, 0)) ∧
    (¬ (SN_required - a1 * 3 ≤ 0) → ¬ (SN_required - a1 * 3 - a2 * 6 * m2 ≤ 0) →
      calculate_layer_thickness SN_required a1 a2 a3 m2 m3 =
        (3, 6, (SN_required - a1 * 3 - a2 * 6 * m2) / (a3 * m3))) := by
  unfold calculate_layer_thickness
  refine ⟨fun h1 => ?_, fun h1 h2 => ?_, fun h1 h2 => ?_⟩
  · rw [if_pos h1]
  · rw [if_neg h1, if_pos h2]
  · rw [if_neg h1, if_neg h2]

/-- Witness for C3: with `a1 = 1/2` a target of `1` is met by the
minimum asphalt layer alone, so the result is exactly `(3, 0, 0)`. -/
theorem allocate_layers_cases_witness :
    ((1:ℚ) - (1/2) * 3 ≤ 0) ∧
    calculate_layer_thickness 1 (1/2) (14/100) (11/100) 1 1 = (3, 0, 0) :=
  ⟨by norm_num,
    (allocate_layers_cases 1 (1/2) (14/100) (11/100) 1 1).1 (by norm_num)⟩

/-- Claim C4: for a valid input tuple on which the abstract root-finder
returns a non-negative root of the design equation (the situation where
a root lies in the convergence basin of the initial guess 3.0), plugging
the returned structural number back into the equation leaves a residual
of absolute value below `1e-4`. -/
theorem solver_root_residual (solve : (ℝ → ℝ) → ℝ → ℝ)
    (W18 ZR So delta_psi MR s : ℝ)
    (hW : 0 < W18) (hZR : ZR ≤ 0) (hSo0 : 0 < So) (hSo1 : So < 1)
    (hdp : 0 < delta_psi) (hMR : 0 < MR)
    (hsolve : solve (aashto_equation W18 ZR So delta_psi MR) 3.0 = s)
    (hs0 : 0 ≤ s)
    (hroot : aashto_equation W18 ZR So delta_psi MR s = 0) :
    |aashto_equation W18 ZR So delta_psi MR
      (calculate_sn_from_aashto solve W18 ZR So delta_psi MR)| < 1e-4 := by
  have : calculate_sn_from_aashto solve W18 ZR So delta_psi MR = s := by
    rw [calculate_sn_from_aashto, hsolve]
    exact max_eq_left hs0
  rw [this, hroot]
  norm_num

/-- Witness for C4: at `W18 = 10 ^ 3.41`, `ZR = 0`, `So = 1/2`,
`delta_psi = 2.7`, `MR = 10` the number 9 is an exact root, and the
plug-back residual of the returned value is below `1e-4`. -/
theorem solver_root_residual_witness :
    aashto_equation ((10:ℝ) ^ (3.41:ℝ)) 0 (1/2) (27/10) 10 9 = 0 ∧
    |aashto_equation ((10:ℝ) ^ (3.41:ℝ)) 0 (1/2) (27/10) 10
      (calculate_sn_from_aashto (fun _ _ => 9) ((10:ℝ) ^ (3.41:ℝ)) 0 (1/2)
        (27/10) 10)| < 1e-4 :=
  ⟨aashto_root_nine,
    solver_root_residual (fun _ _ => 9) ((10:ℝ) ^ (3.41:ℝ)) 0 (1/2) (27/10) 10 9
      (Real.rpow_pos_of_pos (by norm_num) _) le_rfl (by norm_num) (by norm_num)
      (by norm_num) (by norm_num) rfl (by norm_num) aashto_root_nine⟩

/-- Claim C5: monotonicity of the solved structural number.  When the
root-finders return non-negative roots of the design equation and the
residual is strictly increasing in `SN` on `[0, ∞)` (the regime in which
the solved root is well defined): increasing only `W18` never decreases
the result of `calculate_sn_from_aashto`, and increasing only `MR` never
increases it. -/
theorem solver_monotone (solve1 solve2 : (ℝ → ℝ) → ℝ → ℝ)
    (W18 W18' ZR So delta_psi MR MR' s1 s2 : ℝ) :
    (0 < W18 → W18 ≤ W18' →
      StrictMonoOn (aashto_equation W18' ZR So delta_psi MR) (Set.Ici 0) →
      0 ≤ s1 → 0 ≤ s2 →
      aashto_equation W18 ZR So delta_psi MR s1 = 0 →
      aashto_equation W18' ZR So delta_psi MR s2 = 0 →
      solve1 (aashto_equation W18 ZR So delta_psi MR) 3.0 = s1 →
      solve2 (aashto_equation W18' ZR So delta_psi MR) 3.0 = s2 →
      calculate_sn_from_aashto solve1 W18 ZR So delta_psi MR ≤
        calculate_sn_from_aashto solve2 W18' ZR So delta_psi MR) ∧
    (0 < MR → MR ≤ MR' →
      StrictMonoOn (aashto_equation W18 ZR So delta_psi MR') (Set.Ici 0) →
      0 ≤ s1 → 0 ≤ s2 →
      aashto_equation W18 ZR So delta_psi MR s1 = 0 →
      aashto_equation W18 ZR So delta_psi MR' s2 = 0 →
      solve1 (aashto_equation W18 ZR So delta_psi MR) 3.0 = s1 →
      solve2 (aashto_equation W18 ZR So delta_psi MR') 3.0 = s2 →
      calculate_sn_from_aashto solve2 W18 ZR So delta_psi MR' ≤
        calculate_sn_from_aashto solve1 W18 ZR So delta_psi MR) := by
  constructor
  · intro hW hWW hmono hs1 hs2 hr1 hr2 hv1 hv2
    have hle : s1 ≤ s2 := by
      by_contra hlt
      push_neg at hlt
      have hx := hmono (Set.mem_Ici.mpr hs2) (Set.mem_Ici.mpr hs1) hlt
      rw [hr2] at hx
      have hshift : aashto_equation W18' ZR So delta_psi MR s1 ≤ 0 := by
        rw [aashto_W18_shift W18 W18' ZR So delta_psi MR s1, hr1]
        have := Real.logb_le_logb_of_le (b := 10) (by norm_num) hW hWW
        linarith
      linarith
    rw [calculate_sn_from_aashto, calculate_sn_from_aashto, hv1, hv2]
    exact max_le_max hle le_rfl
  · intro hMR hMM hmono hs1 hs2 hr1 hr2 hv1 hv2
    have hle : s2 ≤ s1 := by
      by_contra hlt
      push_neg at hlt
      have hx := hmono (Set.mem_Ici.mpr hs1) (Set.mem_Ici.mpr hs2) hlt
      rw [hr2] at hx
      have hshift : 0 ≤ aashto_equation W18 ZR So delta_psi MR' s1 := by
        rw [aashto_MR_shift W18 ZR So delta_psi MR MR' s1, hr1]
        have := Real.logb_le_logb_of_le (b := 10) (by norm_num) hMR hMM
        linarith
      linarith
    rw [calculate_sn_from_aashto, calculate_sn_from_aashto, hv1, hv2]
    exact max_le_max hle le_rfl

/-- Witness for C5: raising `W18` from `10 ^ 3.41` to `10 ^ 12.77`
moves the solved root from 9 up to 99; raising `MR` from 10 to
`10 ^ (146/29)` moves it from 9 down to 0. -/
theorem solver_monotone_witness :
    calculate_sn_from_aashto (fun _ _ => 9) ((10:ℝ) ^ (3.41:ℝ)) 0 (1/2) (27/10) 10 ≤
      calculate_sn_from_aashto (fun _ _ => 99) ((10:ℝ) ^ (12.77:ℝ)) 0 (1/2) (27/10) 10 ∧
    calculate_sn_from_aashto (fun _ _ => 0) ((10:ℝ) ^ (3.41:ℝ)) 0 (1/2) (27/10)
        ((10:ℝ) ^ ((146/29:ℝ))) ≤
      calculate_sn_from_aashto (fun _ _ => 9) ((10:ℝ) ^ (3.41:ℝ)) 0 (1/2) (27/10) 10 :=
  ⟨(solver_monotone (fun _ _ => 9) (fun _ _ => 99)
      ((10:ℝ) ^ (3.41:ℝ)) ((10:ℝ) ^ (12.77:ℝ)) 0 (1/2) (27/10) 10 10 9 99).1
      (Real.rpow_pos_of_pos (by norm_num) _)
      ((Real.rpow_le_rpow_left_iff (by norm_num)).mpr (by norm_num))
      (aashto_strictMonoOn_delta27 _ _ _ _)
      (by norm_num) (by norm_num) aashto_root_nine aashto_root_ninetynine rfl rfl,
    (solver_monotone (fun _ _ => 9) (fun _ _ => 0)
      ((10:ℝ) ^ (3.41:ℝ)) ((10:ℝ) ^ (3.41:ℝ)) 0 (1/2) (27/10) 10
      ((10:ℝ) ^ ((146/29:ℝ))) 9 0).2
      (by norm_num)
      ten_le_ten_rpow
      (aashto_strictMonoOn_delta27 _ _ _ _)
      (by norm_num) (by norm_num) aashto_root_nine aashto_root_zero rfl rfl⟩

/-- Claim C6: `get_reliability_z` returns exactly the tabulated deviate
for each of the ten enumerated reliability levels, and returns -1.645
for every input outside that set. -/
theorem reliability_table_exact :
    get_reliability_z 50 = 0 ∧ get_reliability_z 60 = -253/1000 ∧
    get_reliability_z 70 = -524/1000 ∧ get_reliability_z 75 = -674/1000 ∧
    get_reliability_z 80 = -841/1000 ∧ get_reliability_z 85 = -1037/1000 ∧
    get_reliability_z 90 = -1282/1000 ∧ get_reliability_z 95 = -1645/1000 ∧
    get_reliability_z 99 = -2327/1000 ∧ get_reliability_z (999/10) = -309/100 ∧
    ∀ r : ℚ, r ∉ ([50, 60, 70, 75, 80, 85, 90, 95, 99, 999/10] : List ℚ) →
      get_reliability_z r = -1645/1000 := by
  refine ⟨by norm_num [get_reliability_z], by norm_num [get_reliability_z],
    by norm_num [get_reliability_z], by norm_num [get_reliability_z],
    by norm_num [get_reliability_z], by norm_num [get_reliability_z],
    by norm_num [get_reliability_z], by norm_num [get_reliability_z],
    by norm_num [get_reliability_z], by norm_num [get_reliability_z],
    fun r hr => ?_⟩
  simp only [List.mem_cons, List.not_mem_nil, or_false, not_or] at hr
  obtain ⟨h1, h2, h3, h4, h5, h6, h7, h8, h9, h10⟩ := hr
  simp only [get_reliability_z, h1, h2, h3, h4, h5, h6, h7, h8, h9, h10, if_false]

/-- Witness for C6: 42 is outside the enumerated set and maps to the
fallback -1.645. -/
theorem reliability_table_exact_witness :
    (42:ℚ) ∉ ([50, 60, 70, 75, 80, 85, 90, 95, 99, 999/10] : List ℚ) ∧
    get_reliability_z 42 = -1645/1000 :=
  ⟨by norm_num [List.mem_cons],
    reliability_table_exact.2.2.2.2.2.2.2.2.2.2 42 (by norm_num [List.mem_cons])⟩

/-- Claim C7: for domain-invalid inputs, a serviceability ratio
`delta_psi / (4.2 - 1.5)` that is not positive or `MR ≤ 0`, the
undefined-logarithm failure arises inside the equation and the core does
not catch it: for any root-finder that evaluates the equation at the
initial guess and propagates a failing evaluation, the failure
propagates out of `calculate_sn_from_aashtoE`. -/
theorem domain_invalid_propagates (solve : (ℝ → Option ℝ) → ℝ → Option ℝ)
    (W18 ZR So delta_psi MR : ℝ)
    (hsolve : ∀ (f : ℝ → Option ℝ) (x0 : ℝ), f x0 = none → solve f x0 = none)
    (h : delta_psi / (4.2 - 1.5) ≤ 0 ∨ MR ≤ 0) :
    calculate_sn_from_aashtoE solve W18 ZR So delta_psi MR = none := by
  have hnone : aashto_equationE W18 ZR So delta_psi MR 3.0 = none :=
    aashto_equationE_none W18 ZR So delta_psi MR 3.0 h
  rw [calculate_sn_from_aashtoE, hsolve _ _ hnone]
  rfl

/-- Witness for C7: with `delta_psi = 0` the failure propagates through
a concrete root-finder that evaluates the equation at the initial
guess. -/
theorem domain_invalid_propagates_witness :
    ((0:ℝ) / (4.2 - 1.5) ≤ 0 ∨ (1:ℝ) ≤ 0) ∧
    calculate_sn_from_aashtoE (fun f x0 => (f x0).bind (fun _ => some x0))
      1 0 (1/2) 0 1 = none :=
  ⟨Or.inl (by norm_num),
    domain_invalid_propagates (fun f x0 => (f x0).bind (fun _ => some x0))
      1 0 (1/2) 0 1 (fun f x0 h => by simp only [h, Option.none_bind])
      (Or.inl (by norm_num))⟩

/-- Claim C8: a root-finder that fails to converge still hands back an
estimate (`fsolve` is called without inspecting any convergence status),
and `calculate_sn_from_aashtoE` signals no error: whatever estimate the
solver produces, the function returns it clamped to be non-negative. -/
theorem nonconvergence_silent (solve : (ℝ → Option ℝ) → ℝ → Option ℝ)
    (W18 ZR So delta_psi MR s : ℝ)
    (hsolve : solve (aashto_equationE W18 ZR So delta_psi MR) 3.0 = some s) :
    calculate_sn_from_aashtoE solve W18 ZR So delta_psi MR = some (max s 0) ∧
    0 ≤ max s 0 := by
  constructor
  · rw [calculate_sn_from_aashtoE, hsolve]
    rfl
  · exact le_max_right _ _

/-- Witness for C8: a solver that gives up with the negative estimate -2
produces the successful, clamped result `some 0`-shaped value, not an
error. -/
theorem nonconvergence_silent_witness :
    calculate_sn_from_aashtoE (fun _ _ => some (-2)) 1000000 (-1282/1000) (45/100)
        (17/10) 10000 = some (max (-2) 0) ∧
    0 ≤ max (-2:ℝ) 0 :=
  nonconvergence_silent (fun _ _ => some (-2)) 1000000 (-1282/1000) (45/100)
    (17/10) 10000 (-2) rfl

/-- Claim C9: no minimum thickness is enforced on the subbase layer:
with the standard coefficients, for every positive bound `eps` there is
a target `SN_required` for which the returned subbase thickness is
strictly between 0 and `eps` (in particular strictly below the unused
`D3_min = 6`). -/
theorem subbase_below_min (eps : ℚ) (heps : 0 < eps) :
    ∃ SN_required : ℚ,
      0 < (calculate_layer_thickness SN_required (44/100) (14/100) (11/100) 1 1).2.2 ∧
      (calculate_layer_thickness SN_required (44/100) (14/100) (11/100) 1 1).2.2 < eps ∧
      (calculate_layer_thickness SN_required (44/100) (14/100) (11/100) 1 1).2.2 < 6 := by
  set d : ℚ := min (eps / 2) 3 with hd
  have hd0 : 0 < d := lt_min (by linarith) (by norm_num)
  have hde : d < eps := lt_of_le_of_lt (min_le_left _ _) (by linarith)
  have hd3 : d ≤ 3 := min_le_right _ _
  refine ⟨216/100 + 11/100 * d, ?_⟩
  have hres : (calculate_layer_thickness (216/100 + 11/100 * d)
      (44/100) (14/100) (11/100) 1 1).2.2 = d := by
    simp only [calculate_layer_thickness]
    rw [if_neg (by linarith), if_neg (by linarith)]
    simp only
    field_simp
    ring
  rw [hres]
  exact ⟨hd0, hde, by linarith⟩

/-- Witness for C9: a subbase thickness strictly between 0 and 1/1000
is attainable. -/
theorem subbase_below_min_witness :
    (0:ℚ) < 1/1000 ∧
    ∃ SN_required : ℚ,
      0 < (calculate_layer_thickness SN_required (44/100) (14/100) (11/100) 1 1).2.2 ∧
      (calculate_layer_thickness SN_required (44/100) (14/100) (11/100) 1 1).2.2 < 1/1000 ∧
      (calculate_layer_thickness SN_required (44/100) (14/100) (11/100) 1 1).2.2 < 6 :=
  ⟨by norm_num, subbase_below_min (1/1000) (by norm_num)⟩

/-- Claim C10: `get_layer_coefficient` ignores its `material_property`
argument entirely, returns the constants 0.44, 0.14, 0.11 for the three
known material types, and 0 for any other material type. -/
theorem coefficient_ignores_property :
    (∀ (t : String) (p q : ℚ), get_layer_coefficient t p = get_layer_coefficient t q) ∧
    (∀ p : ℚ, get_layer_coefficient (r"asphalt") p = 44/100) ∧
    (∀ p : ℚ, get_layer_coefficient (r"base") p = 14/100) ∧
    (∀ p : ℚ, get_layer_coefficient (r"subbase") p = 11/100) ∧
    (∀ (t : String) (p : ℚ), t ≠ r"asphalt" → t ≠ r"base" → t ≠ r"subbase" →
      get_layer_coefficient t p = 0) :=
  ⟨fun _ _ _ => rfl, fun _ => rfl, fun _ => rfl, fun _ => rfl,
    fun t p h1 h2 h3 => by
      simp only [get_layer_coefficient, h1, h2, h3, if_false]⟩

/-- Witness for C10: an unknown material type maps to the coefficient
0. -/
theorem coefficient_ignores_property_witness :
    ((r"gravel" : String) ≠ r"asphalt") ∧ get_layer_coefficient (r"gravel") 5 = 0 :=
  ⟨by decide,
    coefficient_ignores_property.2.2.2.2 (r"gravel") 5 (by decide) (by decide) (by decide)⟩

end Pavement
